import Mathlib

/-!
Verification of the collection-and-delivery pipeline of the yalg-extension
browser extension.  Every definition is a shallow embedding of a function of
the JavaScript sources; machine arithmetic (JavaScript 32-bit `ToInt32`
wraparound) is made explicit over `Int`, asynchronous callback state is made
explicit as folds over outcome lists, and the two collection loops are
embedded as well-founded recursions whose measure is the real loop's
progress argument.
-/

namespace Yalg

/- ## IdentityGenerator: `generateElementId` of `src/content/content.js`
   (identical code in `src/content/modules/contentScraper.js`). -/

/-- JavaScript `ToInt32`: reduce an exact integer to the signed 32-bit
representative in `[-2^31, 2^31)`. -/
def toInt32 (x : Int) : Int :=
  (x + 2147483648) % 4294967296 - 2147483648

/-- One iteration of the hash loop of `generateElementId`:
`hash = ((hash << 5) - hash) + char; hash = hash & hash;`.
`hash << 5` is itself a 32-bit operation (`ToInt32(hash * 32)`), the
subtraction and addition are exact double arithmetic (the magnitudes stay
far below 2^53), and `hash & hash` applies `ToInt32` to the result. -/
def hashStep (h : Int) (c : Nat) : Int :=
  toInt32 (toInt32 (h * 32) - h + (c : Int))

/-- The hash-loop step as the specification words it:
`hash = (hash<<5) - hash + charCode` with a single 32-bit wraparound. -/
def specHashStep (h : Int) (c : Nat) : Int :=
  toInt32 (h * 32 - h + (c : Int))

/-- UTF-16 code units of the decimal rendering of `i`
(JavaScript string concatenation `+ index`). -/
def decimalCodes (i : Nat) : List Nat :=
  (Nat.toDigits 10 i).map Char.toNat

/-- Digit character used by JavaScript `Number.prototype.toString(36)`:
`0`-`9` then `a`-`z`. -/
def base36Char (d : Nat) : Char :=
  if d < 10 then Char.ofNat (48 + d) else Char.ofNat (87 + d)

/-- Base-36 rendering of a natural number, most significant digit first
(accumulator form). -/
def toBase36Aux (n : Nat) (acc : List Char) : List Char :=
  if h : n < 36 then
    base36Char n :: acc
  else
    toBase36Aux (n / 36) (base36Char (n % 36) :: acc)
  termination_by n
  decreasing_by
    exact Nat.div_lt_self (by omega) (by omega)

/-- `Math.abs(hash).toString(36)` as a list of characters. -/
def toBase36 (n : Nat) : List Char :=
  toBase36Aux n []

/-- `generateElementId(htmlContent, index)` of `src/content/content.js`
(lines 337-347).  `htmlCodes` is the sequence of UTF-16 code units of
`htmlContent`.  The function takes the first 500 code units, appends the
decimal rendering of `index`, folds `hashStep` from 0, takes the absolute
value, renders base-36 and truncates to 12 characters. -/
def generateElementId (htmlCodes : List Nat) (index : Nat) : List Char :=
  (toBase36 (((htmlCodes.take 500 ++ decimalCodes index).foldl hashStep 0).natAbs)).take 12

/-- The same identifier computed exactly as §4.1 of the specification words
the algorithm, with `specHashStep` as the fold step. -/
def specGenerateElementId (htmlCodes : List Nat) (index : Nat) : List Char :=
  (toBase36 (((htmlCodes.take 500 ++ decimalCodes index).foldl specHashStep 0).natAbs)).take 12

lemma toInt32_add_left (a b : Int) : toInt32 (toInt32 a + b) = toInt32 (a + b) := by
  unfold toInt32
  omega

lemma hashStep_eq_specHashStep (h : Int) (c : Nat) :
    hashStep h c = specHashStep h c := by
  unfold hashStep specHashStep
  have := toInt32_add_left (h * 32) (-h + (c : Int))
  calc toInt32 (toInt32 (h * 32) - h + (c : Int))
      = toInt32 (toInt32 (h * 32) + (-h + (c : Int))) := by ring_nf
    _ = toInt32 (h * 32 + (-h + (c : Int))) := toInt32_add_left _ _
    _ = toInt32 (h * 32 - h + (c : Int)) := by ring_nf

lemma foldl_hashStep_eq (l : List Nat) (h : Int) :
    l.foldl hashStep h = l.foldl specHashStep h := by
  induction l generalizing h with
  | nil => rfl
  | cons c rest ih =>
      simp only [List.foldl_cons, hashStep_eq_specHashStep, ih]

/-- C4: `generateElementId` is pure and deterministic — identical inputs give
identical outputs — and computes exactly the algorithm of §4.1: first 500
characters of the content plus the decimal string of the index, folded into a
32-bit signed integer by `hash = (hash<<5) - hash + charCode` with 32-bit
wraparound, absolute value, base-36, truncated to 12 characters. -/
theorem generateElementId_pure_and_matches_spec (htmlCodes : List Nat) (index : Nat) :
    generateElementId htmlCodes index = specGenerateElementId htmlCodes index ∧
    generateElementId htmlCodes index = generateElementId htmlCodes index := by
  refine ⟨?_, rfl⟩
  unfold generateElementId specGenerateElementId
  rw [foldl_hashStep_eq]

/- ## DeliveryCoordinator completion: `processElementsAsync` of
   `src/content/content.js` (lines 256-335).

   `processElementsAsync` schedules one `chrome.runtime.sendMessage`
   callback per collected element; each callback runs exactly once when that
   element's delivery attempt resolves.  The callback closes over the
   mutable counters `totalSuccessful` / `totalFailed`, computes
   `completedCount = totalSuccessful + totalFailed`, and fires the
   completion actions (`createCompletionPopup`, `SCRAPING_COMPLETE`) when
   `completedCount === collectedElements.length`.  We embed the callback as
   a state transition and a run as a fold over the list of per-item
   outcomes in their (arbitrary) resolution order. -/

/-- Counter state of `processElementsAsync`: the two outcome counters plus
the number of times the completion actions have fired. -/
structure ProcState where
  totalSuccessful : Nat
  totalFailed : Nat
  completions : Nat
  deriving Repr, DecidableEq

/-- The body of the per-item callback of `processElementsAsync`, for a run
over `n` collected elements.  `ok` tells whether the branch taken was the
success branch (`response && response.success`); both error branches
(`chrome.runtime.lastError` and a non-success response) increment
`totalFailed`.  After updating the counters the callback compares
`completedCount` with `n` and fires completion when they are equal. -/
def resolveOutcome (n : Nat) (st : ProcState) (ok : Bool) : ProcState :=
  let succ := if ok then st.totalSuccessful + 1 else st.totalSuccessful
  let fail := if ok then st.totalFailed else st.totalFailed + 1
  let completedCount := succ + fail
  { totalSuccessful := succ
    totalFailed := fail
    completions := if completedCount = n then st.completions + 1 else st.completions }

/-- The run of `processElementsAsync` over `n` collected elements observed
after the per-item callbacks listed in `l` (in resolution order, each entry
the outcome of one distinct item) have run, starting from the fresh
counters `totalSuccessful = totalFailed = 0`. -/
def runOutcomes (n : Nat) (l : List Bool) : ProcState :=
  l.foldl (resolveOutcome n) ⟨0, 0, 0⟩

lemma resolveOutcome_counters (n : Nat) (st : ProcState) (ok : Bool) :
    (resolveOutcome n st ok).totalSuccessful + (resolveOutcome n st ok).totalFailed
      = st.totalSuccessful + st.totalFailed + 1 := by
  cases ok <;> simp [resolveOutcome] <;> omega

lemma resolveOutcome_completions (n : Nat) (st : ProcState) (ok : Bool) :
    (resolveOutcome n st ok).completions
      = if st.totalSuccessful + st.totalFailed + 1 = n
        then st.completions + 1 else st.completions := by
  cases ok <;> simp [resolveOutcome] <;> split <;> split <;> omega

lemma foldl_resolveOutcome_counters (n : Nat) (l : List Bool) (st : ProcState) :
    (l.foldl (resolveOutcome n) st).totalSuccessful
        + (l.foldl (resolveOutcome n) st).totalFailed
      = st.totalSuccessful + st.totalFailed + l.length := by
  induction l generalizing st with
  | nil => simp
  | cons ok rest ih =>
      simp only [List.foldl_cons, List.length_cons, ih, resolveOutcome_counters]
      omega

lemma foldl_resolveOutcome_completions (n : Nat) (l : List Bool) (st : ProcState)
    (hle : st.totalSuccessful + st.totalFailed + l.length ≤ n) :
    (l.foldl (resolveOutcome n) st).completions
      = st.completions
        + (if st.totalSuccessful + st.totalFailed + l.length = n
              ∧ st.totalSuccessful + st.totalFailed < n
           then 1 else 0) := by
  induction l generalizing st with
  | nil =>
      simp only [List.foldl_nil, List.length_nil, Nat.add_zero]
      split
      · omega
      · omega
  | cons ok rest ih =>
      simp only [List.foldl_cons, List.length_cons] at hle ⊢
      rw [ih (resolveOutcome n st ok) (by rw [resolveOutcome_counters]; omega)]
      rw [resolveOutcome_counters, resolveOutcome_completions]
      split <;> split <;> split <;> omega

/-- C1: in a run of `processElementsAsync` over `n` collected elements, at
any observation point where `k ≤ n` of the `n` distinct items have resolved
(in any order, with any success/failure outcomes), the completion actions
have fired exactly once if `k = n` with `n > 0`, and have not fired at all
otherwise — in particular they fire only after the `n`-th item resolves,
exactly once, and never for a run with `n = 0` items. -/
theorem processElementsAsync_completion_exactly_once (n : Nat) (l : List Bool)
    (hlen : l.length ≤ n) :
    (runOutcomes n l).completions = if l.length = n ∧ 0 < n then 1 else 0 := by
  unfold runOutcomes
  rw [foldl_resolveOutcome_completions n l ⟨0, 0, 0⟩ (by simpa using hlen)]
  simp

/-- Witness for C1 at `n = 3`: after all three items resolve (second item
first, failures included) completion has fired exactly once, and after only
two of the three it has not fired. -/
theorem processElementsAsync_completion_witness :
    ([false, true, true] : List Bool).length ≤ 3 ∧
      (runOutcomes 3 [false, true, true]).completions
        = (if ([false, true, true] : List Bool).length = 3 ∧ 0 < 3 then 1 else 0) ∧
    ([false, true] : List Bool).length ≤ 3 ∧
      (runOutcomes 3 [false, true]).completions
        = (if ([false, true] : List Bool).length = 3 ∧ 0 < 3 then 1 else 0) :=
  ⟨by decide,
   processElementsAsync_completion_exactly_once 3 [false, true, true] (by decide),
   by decide,
   processElementsAsync_completion_exactly_once 3 [false, true] (by decide)⟩

/- ## DataProcessor counters: `processPost` of
   `src/content/modules/linkedinNavigator.js` (lines 486-556).

   `processPost` keeps three separate counters in `processingStats`:
   `totalSuccessful` and `totalFailed` are incremented by the respective
   outcome branch (the `catch` branch also increments `totalFailed`), then
   `processed` is incremented unconditionally, and the progress snapshot
   `{totalProcessed, totalSuccessful, totalFailed}` is emitted. -/

/-- Outcome of one `processPost` call: backend accepted the element, backend
reported failure, or `sendSingleElementToBackend` threw. -/
inductive PostOutcome where
  | ok
  | failed
  | err
  deriving Repr, DecidableEq

/-- The counter block of `processingStats` in `DataProcessor`. -/
structure DPStats where
  totalSuccessful : Nat
  totalFailed : Nat
  processed : Nat
  deriving Repr, DecidableEq

/-- Counter update performed by one `processPost` call (`processPost` lines
490-507): one of `totalSuccessful` / `totalFailed` is incremented according
to the outcome, then `processed` is incremented. -/
def updateStats (st : DPStats) (o : PostOutcome) : DPStats :=
  let st1 : DPStats :=
    match o with
    | .ok => { st with totalSuccessful := st.totalSuccessful + 1 }
    | .failed => { st with totalFailed := st.totalFailed + 1 }
    | .err => { st with totalFailed := st.totalFailed + 1 }
  { st1 with processed := st1.processed + 1 }

/-- The stats visible in the progress snapshot emitted after the calls
listed in `l` (in resolution order) have run, starting from the
`resetStats` state. -/
def runStats (l : List PostOutcome) : DPStats :=
  l.foldl updateStats ⟨0, 0, 0⟩

lemma foldl_updateStats (l : List PostOutcome) (st : DPStats) :
    (l.foldl updateStats st).processed = st.processed + l.length ∧
    (l.foldl updateStats st).totalSuccessful + (l.foldl updateStats st).totalFailed
      = st.totalSuccessful + st.totalFailed + l.length := by
  induction l generalizing st with
  | nil => simp
  | cons o rest ih =>
      rcases ih (updateStats st o) with ⟨h1, h2⟩
      simp only [List.foldl_cons, List.length_cons]
      cases o <;> simp only [updateStats] at h1 h2 ⊢ <;> omega

/-- C2: at every observable progress snapshot of a delivery run over
`totalCollected` items — i.e. after any number `l.length ≤ totalCollected`
of the distinct items have resolved, in any order — the counters satisfy
`totalProcessed = totalSuccessful + totalFailed` and
`totalProcessed ≤ totalCollected`. -/
theorem processPost_counter_invariant (totalCollected : Nat) (l : List PostOutcome)
    (hlen : l.length ≤ totalCollected) :
    (runStats l).processed = (runStats l).totalSuccessful + (runStats l).totalFailed ∧
    (runStats l).processed ≤ totalCollected := by
  rcases foldl_updateStats l ⟨0, 0, 0⟩ with ⟨h1, h2⟩
  simp only [Nat.zero_add] at h1 h2
  unfold runStats
  constructor
  · omega
  · omega

/-- Witness for C2 at `totalCollected = 4` after three resolutions
(one success, one failure, one thrown error). -/
theorem processPost_counter_invariant_witness :
    ([PostOutcome.ok, PostOutcome.failed, PostOutcome.err]).length ≤ 4 ∧
    ((runStats [PostOutcome.ok, PostOutcome.failed, PostOutcome.err]).processed
        = (runStats [PostOutcome.ok, PostOutcome.failed, PostOutcome.err]).totalSuccessful
          + (runStats [PostOutcome.ok, PostOutcome.failed, PostOutcome.err]).totalFailed ∧
      (runStats [PostOutcome.ok, PostOutcome.failed, PostOutcome.err]).processed ≤ 4) :=
  ⟨by decide,
   processPost_counter_invariant 4 [PostOutcome.ok, PostOutcome.failed, PostOutcome.err]
     (by decide)⟩


/- ## FeedCollector loops.

   The repository contains two collection loops over the same structural
   selector: `collectHTMLElements` in `src/content/content.js` (lines
   176-248; this is the content script registered in `manifest.json`) and
   `ContentScraper.collectAllElements` in
   `src/content/modules/contentScraper.js` (lines 25-61).  Both scan, count
   a pass as empty when it yields zero new elements (`noNewElementsCount`),
   and stop at `MAX_SCROLL_ATTEMPTS = 20` scroll attempts or
   `MAX_NO_NEW_ELEMENTS = 3` consecutive empty passes, but they differ in
   when they scroll: `collectHTMLElements` scrolls unconditionally at the
   end of every loop iteration before incrementing `scrollAttempts`, while
   `collectAllElements` re-checks `shouldContinueCollecting` and scrolls
   only when another pass will follow.

   The live DOM is abstracted as `newAt : Nat → Nat`, giving the number of
   NEW (not previously seen) elements that the scan of pass `p` (0-based)
   contributes; this abstracts `querySelectorAll` combined with the
   dedup-by-id set.  `isScrapingActive` is taken to stay `true` (no user
   cancellation). -/

/-- `MAX_SCROLL_ATTEMPTS` of `src/shared/constants.js`. -/
def MAX_SCROLL_ATTEMPTS : Nat := 20

/-- `MAX_NO_NEW_ELEMENTS` of `src/shared/constants.js`. -/
def MAX_NO_NEW_ELEMENTS : Nat := 3

/-- Update of `noNewElementsCount` after a scan pass that found `found` new
elements: `if (newElementsFound === 0) noNewElementsCount++; else
noNewElementsCount = 0;`. -/
def nextNoNew (found noNew : Nat) : Nat :=
  if found = 0 then noNew + 1 else 0

/-- Observable result of a collection run: number of scan passes performed,
number of scroll actions performed, total elements collected, and the final
`scrollAttempts` / `noNewElementsCount` values. -/
structure CollectResult where
  passes : Nat
  scrolls : Nat
  total : Nat
  attempts : Nat
  noNew : Nat
  deriving Repr, DecidableEq

/-- The `while` loop of `collectHTMLElements` (`src/content/content.js`
lines 176-248): while `scrollAttempts < 20 && noNewElementsCount < 3`,
scan (pass `pass`), update `noNewElementsCount`, then scroll, wait, and
increment `scrollAttempts` — the scroll happens on every iteration. -/
def collectHTMLElementsLoop (newAt : Nat → Nat) (pass attempt noNew total passes scrolls : Nat) :
    CollectResult :=
  if h : attempt < MAX_SCROLL_ATTEMPTS ∧ noNew < MAX_NO_NEW_ELEMENTS then
    collectHTMLElementsLoop newAt (pass + 1) (attempt + 1) (nextNoNew (newAt pass) noNew)
      (total + newAt pass) (passes + 1) (scrolls + 1)
  else
    ⟨passes, scrolls, total, attempt, noNew⟩
  termination_by MAX_SCROLL_ATTEMPTS - attempt
  decreasing_by
    have := h.1
    omega

/-- A full `collectHTMLElements` run starting from
`scrollAttempts = 0`, `noNewElementsCount = 0`, nothing collected. -/
def collectHTMLElements (newAt : Nat → Nat) : CollectResult :=
  collectHTMLElementsLoop newAt 0 0 0 0 0 0

/-- The `while` loop of `ContentScraper.collectAllElements`
(`src/content/modules/contentScraper.js` lines 25-61): while
`shouldContinueCollecting`, scan and update `noNewElementsCount`; then
scroll and increment `currentScrollAttempt` only if
`shouldContinueCollecting` still holds for the updated count. -/
def collectAllElementsLoop (newAt : Nat → Nat) (pass attempt noNew total passes scrolls : Nat) :
    CollectResult :=
  if _h : attempt < MAX_SCROLL_ATTEMPTS ∧ noNew < MAX_NO_NEW_ELEMENTS then
    if h2 : attempt < MAX_SCROLL_ATTEMPTS ∧ nextNoNew (newAt pass) noNew < MAX_NO_NEW_ELEMENTS then
      collectAllElementsLoop newAt (pass + 1) (attempt + 1) (nextNoNew (newAt pass) noNew)
        (total + newAt pass) (passes + 1) (scrolls + 1)
    else
      ⟨passes + 1, scrolls, total + newAt pass, attempt, nextNoNew (newAt pass) noNew⟩
  else
    ⟨passes, scrolls, total, attempt, noNew⟩
  termination_by MAX_SCROLL_ATTEMPTS - attempt
  decreasing_by
    have := h2.1
    omega

/-- A full `ContentScraper.collectAllElements` run starting from the reset
state. -/
def collectAllElements (newAt : Nat → Nat) : CollectResult :=
  collectAllElementsLoop newAt 0 0 0 0 0 0

/-- The mock DOM of the claim: the first scan pass yields 7 (new) elements,
every later pass yields nothing new. -/
def mockDOM : Nat → Nat := fun p => if p = 0 then 7 else 0

lemma collectHTMLElementsLoop_stops_aux (newAt : Nat → Nat) (k : Nat) :
    ∀ pass attempt noNew total passes scrolls,
      MAX_SCROLL_ATTEMPTS - attempt ≤ k →
      (collectHTMLElementsLoop newAt pass attempt noNew total passes scrolls).attempts
          ≥ MAX_SCROLL_ATTEMPTS ∨
        (collectHTMLElementsLoop newAt pass attempt noNew total passes scrolls).noNew
          ≥ MAX_NO_NEW_ELEMENTS := by
  induction k with
  | zero =>
      intro pass attempt noNew total passes scrolls hk
      rw [collectHTMLElementsLoop]
      have hcond : ¬(attempt < MAX_SCROLL_ATTEMPTS ∧ noNew < MAX_NO_NEW_ELEMENTS) := by
        unfold MAX_SCROLL_ATTEMPTS at *
        omega
      rw [dif_neg hcond]
      show attempt ≥ MAX_SCROLL_ATTEMPTS ∨ noNew ≥ MAX_NO_NEW_ELEMENTS
      unfold MAX_SCROLL_ATTEMPTS at *
      omega
  | succ k ih =>
      intro pass attempt noNew total passes scrolls hk
      rw [collectHTMLElementsLoop]
      split
      · exact ih (pass + 1) (attempt + 1) _ _ _ _
          (by unfold MAX_SCROLL_ATTEMPTS at *; omega)
      · next hcond =>
          show attempt ≥ MAX_SCROLL_ATTEMPTS ∨ noNew ≥ MAX_NO_NEW_ELEMENTS
          unfold MAX_SCROLL_ATTEMPTS MAX_NO_NEW_ELEMENTS at *
          omega

lemma collectHTMLElementsLoop_stops (newAt : Nat → Nat)
    (pass attempt noNew total passes scrolls : Nat) :
    (collectHTMLElementsLoop newAt pass attempt noNew total passes scrolls).attempts
        ≥ MAX_SCROLL_ATTEMPTS ∨
      (collectHTMLElementsLoop newAt pass attempt noNew total passes scrolls).noNew
        ≥ MAX_NO_NEW_ELEMENTS :=
  collectHTMLElementsLoop_stops_aux newAt (MAX_SCROLL_ATTEMPTS - attempt)
    pass attempt noNew total passes scrolls (Nat.le_refl _)

lemma collectAllElementsLoop_stops_aux (newAt : Nat → Nat) (k : Nat) :
    ∀ pass attempt noNew total passes scrolls,
      MAX_SCROLL_ATTEMPTS - attempt ≤ k →
      (collectAllElementsLoop newAt pass attempt noNew total passes scrolls).attempts
          ≥ MAX_SCROLL_ATTEMPTS ∨
        (collectAllElementsLoop newAt pass attempt noNew total passes scrolls).noNew
          ≥ MAX_NO_NEW_ELEMENTS := by
  induction k with
  | zero =>
      intro pass attempt noNew total passes scrolls hk
      rw [collectAllElementsLoop]
      have hcond : ¬(attempt < MAX_SCROLL_ATTEMPTS ∧ noNew < MAX_NO_NEW_ELEMENTS) := by
        unfold MAX_SCROLL_ATTEMPTS at *
        omega
      rw [dif_neg hcond]
      show attempt ≥ MAX_SCROLL_ATTEMPTS ∨ noNew ≥ MAX_NO_NEW_ELEMENTS
      unfold MAX_SCROLL_ATTEMPTS at *
      omega
  | succ k ih =>
      intro pass attempt noNew total passes scrolls hk
      rw [collectAllElementsLoop]
      split
      · split
        · exact ih (pass + 1) (attempt + 1) _ _ _ _
            (by unfold MAX_SCROLL_ATTEMPTS at *; omega)
        · next hcond2 =>
            show attempt ≥ MAX_SCROLL_ATTEMPTS
                ∨ nextNoNew (newAt pass) noNew ≥ MAX_NO_NEW_ELEMENTS
            unfold MAX_SCROLL_ATTEMPTS MAX_NO_NEW_ELEMENTS at *
            omega
      · next hcond =>
          show attempt ≥ MAX_SCROLL_ATTEMPTS ∨ noNew ≥ MAX_NO_NEW_ELEMENTS
          unfold MAX_SCROLL_ATTEMPTS MAX_NO_NEW_ELEMENTS at *
          omega

lemma collectAllElementsLoop_stops (newAt : Nat → Nat)
    (pass attempt noNew total passes scrolls : Nat) :
    (collectAllElementsLoop newAt pass attempt noNew total passes scrolls).attempts
        ≥ MAX_SCROLL_ATTEMPTS ∨
      (collectAllElementsLoop newAt pass attempt noNew total passes scrolls).noNew
        ≥ MAX_NO_NEW_ELEMENTS :=
  collectAllElementsLoop_stops_aux newAt (MAX_SCROLL_ATTEMPTS - attempt)
    pass attempt noNew total passes scrolls (Nat.le_refl _)

/-- C3 counterexample: on the mock DOM that yields 7 elements on the first
pass and nothing new afterwards, the registered content script's collection
loop (`collectHTMLElements`, `src/content/content.js`) performs 4 scroll
actions, not the 3 the claim states — it scrolls at the end of every
iteration, including the final empty pass. -/
theorem collectHTMLElements_mock_four_scrolls :
    (collectHTMLElements mockDOM).scrolls = 4 ∧
    ¬((collectHTMLElements mockDOM).scrolls = 3) := by
  have h : collectHTMLElements mockDOM = ⟨4, 4, 7, 4, 3⟩ := by
    simp [collectHTMLElements, collectHTMLElementsLoop, mockDOM, nextNoNew,
      MAX_SCROLL_ATTEMPTS, MAX_NO_NEW_ELEMENTS]
  rw [h]
  exact ⟨rfl, by decide⟩

/-- C3 (amended): both collection loops terminate for every DOM, stopping at
the first of `scrollAttempt ≥ 20` or 3 consecutive empty scan passes.  On
the mock DOM with a fixed 7 elements on the first pass and nothing new
afterwards, `ContentScraper.collectAllElements` performs exactly 4 scan
passes (1 finding 7, then 3 empty) and exactly 3 scroll actions, while the
registered content script's loop `collectHTMLElements` performs exactly 4
scan passes and 4 scroll actions (it scrolls after every pass, including
the final one). -/
theorem collection_loops_mock_and_stop_conditions :
    (collectAllElements mockDOM).passes = 4 ∧
    (collectAllElements mockDOM).scrolls = 3 ∧
    (collectAllElements mockDOM).total = 7 ∧
    (collectHTMLElements mockDOM).passes = 4 ∧
    (collectHTMLElements mockDOM).scrolls = 4 ∧
    (collectHTMLElements mockDOM).total = 7 ∧
    (∀ newAt : Nat → Nat,
      (collectAllElements newAt).attempts ≥ MAX_SCROLL_ATTEMPTS ∨
        (collectAllElements newAt).noNew ≥ MAX_NO_NEW_ELEMENTS) ∧
    (∀ newAt : Nat → Nat,
      (collectHTMLElements newAt).attempts ≥ MAX_SCROLL_ATTEMPTS ∨
        (collectHTMLElements newAt).noNew ≥ MAX_NO_NEW_ELEMENTS) := by
  have h1 : collectAllElements mockDOM = ⟨4, 3, 7, 3, 3⟩ := by
    simp [collectAllElements, collectAllElementsLoop, mockDOM, nextNoNew,
      MAX_SCROLL_ATTEMPTS, MAX_NO_NEW_ELEMENTS]
  have h2 : collectHTMLElements mockDOM = ⟨4, 4, 7, 4, 3⟩ := by
    simp [collectHTMLElements, collectHTMLElementsLoop, mockDOM, nextNoNew,
      MAX_SCROLL_ATTEMPTS, MAX_NO_NEW_ELEMENTS]
  refine ⟨by rw [h1], by rw [h1], by rw [h1], by rw [h2], by rw [h2], by rw [h2], ?_, ?_⟩
  · intro newAt
    exact collectAllElementsLoop_stops newAt 0 0 0 0 0 0
  · intro newAt
    exact collectHTMLElementsLoop_stops newAt 0 0 0 0 0 0

/- ## AuthProvider: `TokenManager` of `src/shared/utils/token-manager.js`.

   `validateToken` (lines 81-153) reads the stored `auth_config`, calls
   `GET /users/me` with the bearer token, and acts on the response:
   `response.ok` (HTTP 2xx) refreshes `lastValidated`; status 401/403
   clears the stored config; any other status, or a thrown network error,
   leaves the stored config untouched and does not set `needsLogin`.
   `getAuthStatus` (lines 282-340) trusts a stored credential without the
   network call while `Date.now() - lastValidated < TOKEN_CHECK_INTERVAL`
   and calls `validateToken` otherwise.

   Storage and `fetch` are made explicit: the stored config is a parameter
   and the result of the single `fetch` is a `FetchOutcome` parameter; the
   functions return their JavaScript result object together with the new
   stored value. -/

/-- `TokenManager.TOKEN_CHECK_INTERVAL` (5 minutes in milliseconds). -/
def TOKEN_CHECK_INTERVAL : Nat := 5 * 60 * 1000

/-- The stored `auth_config` object.  `lastValidated` is optional: the code
reads it as `config.lastValidated || 0`. -/
structure AuthConfig where
  authToken : Option String
  userId : Option String
  lastValidated : Option Nat
  deriving Repr, DecidableEq

/-- Result of the single `fetch` of `validateToken`: an HTTP response with
a status code, or a thrown network error. -/
inductive FetchOutcome where
  | response (status : Nat)
  | netError (msg : String)
  deriving Repr, DecidableEq

/-- `Response.ok`: status in the 2xx range. -/
def responseOk (status : Nat) : Bool :=
  200 ≤ status ∧ status < 300

/-- The result object of `TokenManager.validateToken`. -/
structure VTResult where
  success : Bool
  needsLogin : Bool
  error : Option String
  deriving Repr, DecidableEq

/-- `TokenManager.validateToken` (`src/shared/utils/token-manager.js`
lines 81-153).  `stored` is the persisted `auth_config` (`none` when the
storage key is absent), `now` is `Date.now()` at the
`updateLastValidated` call, `fetch` is the outcome of the `GET /users/me`
call.  Returns the JavaScript result object and the stored config after
the call (`updateLastValidated` on 2xx, `clearAuthConfig` on 401/403,
unchanged otherwise). -/
def validateToken (stored : Option AuthConfig) (now : Nat) (fetch : FetchOutcome) :
    VTResult × Option AuthConfig :=
  match stored with
  | none => (⟨false, true, some "No token available"⟩, none)
  | some c =>
    match c.authToken with
    | none => (⟨false, true, some "No token available"⟩, some c)
    | some _ =>
      match fetch with
      | .response status =>
        if responseOk status then
          (⟨true, false, none⟩, some { c with lastValidated := some now })
        else if status = 401 ∨ status = 403 then
          (⟨false, true, some "Token expired or invalid"⟩, none)
        else
          (⟨false, false, some "API error"⟩, some c)
      | .netError msg =>
        (⟨false, false, some msg⟩, some c)

/-- The result object of `TokenManager.getAuthStatus`, reduced to the
fields the claims speak about. -/
structure AuthStatusResult where
  isAuthenticated : Bool
  needsLogin : Bool
  deriving Repr, DecidableEq

/-- `TokenManager.getAuthStatus` (`src/shared/utils/token-manager.js`
lines 282-340).  Returns the status object, whether the remote check
(`validateToken`, hence `GET /users/me`) was invoked, and the stored
config afterwards.  The freshness test is
`Date.now() - lastValidated < TOKEN_CHECK_INTERVAL` computed over
JavaScript numbers, embedded as a comparison over `Int`. -/
def getAuthStatus (stored : Option AuthConfig) (now : Nat) (fetch : FetchOutcome) :
    AuthStatusResult × Bool × Option AuthConfig :=
  match stored with
  | none => (⟨false, true⟩, false, none)
  | some c =>
    match c.authToken with
    | none => (⟨false, true⟩, false, some c)
    | some _ =>
      let lastValidated := c.lastValidated.getD 0
      let timeSinceValidation : Int := (now : Int) - (lastValidated : Int)
      if timeSinceValidation < (TOKEN_CHECK_INTERVAL : Int) then
        (⟨true, false⟩, false, some c)
      else
        let vr := validateToken (some c) now fetch
        if vr.1.success then
          (⟨true, false⟩, true, vr.2)
        else
          (⟨false, vr.1.needsLogin⟩, true, vr.2)

/-- C5: for a stored credential last validated at `t0`, an auth status
query at time `t` with `t - t0 < 5` minutes reports authenticated without
invoking the remote check, while a query with `t - t0 ≥ 5` minutes invokes
the remote check (`validateToken` / `GET /users/me`) before returning. -/
theorem getAuthStatus_freshness_window (c : AuthConfig) (tk : String) (t0 t : Nat)
    (fetch : FetchOutcome)
    (htok : c.authToken = some tk) (hval : c.lastValidated = some t0) :
    ((t : Int) - (t0 : Int) < 300000 →
      (getAuthStatus (some c) t fetch).2.1 = false ∧
        (getAuthStatus (some c) t fetch).1.isAuthenticated = true) ∧
    ((300000 : Int) ≤ (t : Int) - (t0 : Int) →
      (getAuthStatus (some c) t fetch).2.1 = true) := by
  simp only [getAuthStatus, htok, hval, Option.getD_some]
  constructor
  · intro hfresh
    rw [if_pos (by unfold TOKEN_CHECK_INTERVAL; push_cast; omega)]
    exact ⟨rfl, rfl⟩
  · intro hstale
    rw [if_neg (by unfold TOKEN_CHECK_INTERVAL; push_cast; omega)]
    split <;> rfl

/-- Witness for C5: a credential validated at `t0 = 1000` queried at
`t = 1000 + 4` minutes skips the remote check and stays authenticated; at
`t = 1000 + 6` minutes the remote check is invoked.  (The two parts are two
applications of the freshness theorem at the two concrete times.) -/
theorem getAuthStatus_freshness_window_witness :
    (((241000 : Int) - (1000 : Int) < 300000 →
        (getAuthStatus (some ⟨some "tok", some "uid", some 1000⟩) 241000
            (.response 200)).2.1 = false ∧
          (getAuthStatus (some ⟨some "tok", some "uid", some 1000⟩) 241000
              (.response 200)).1.isAuthenticated = true) ∧
      ((300000 : Int) ≤ (241000 : Int) - (1000 : Int) →
        (getAuthStatus (some ⟨some "tok", some "uid", some 1000⟩) 241000
            (.response 200)).2.1 = true)) ∧
    (((361000 : Int) - (1000 : Int) < 300000 →
        (getAuthStatus (some ⟨some "tok", some "uid", some 1000⟩) 361000
            (.response 200)).2.1 = false ∧
          (getAuthStatus (some ⟨some "tok", some "uid", some 1000⟩) 361000
              (.response 200)).1.isAuthenticated = true) ∧
      ((300000 : Int) ≤ (361000 : Int) - (1000 : Int) →
        (getAuthStatus (some ⟨some "tok", some "uid", some 1000⟩) 361000
            (.response 200)).2.1 = true)) :=
  ⟨getAuthStatus_freshness_window ⟨some "tok", some "uid", some 1000⟩ "tok" 1000 241000
      (.response 200) rfl rfl,
    getAuthStatus_freshness_window ⟨some "tok", some "uid", some 1000⟩ "tok" 1000 361000
      (.response 200) rfl rfl⟩

/-- C6: for a stored credential, the remote validation response determines
the outcome as follows — a 401 or 403 clears the stored credential and
reports unauthenticated with login required; any other non-2xx status, or a
thrown network error, reports failure WITHOUT clearing the stored
credential and without forcing login; a 2xx response refreshes the
`lastValidated` timestamp and reports success. -/
theorem validateToken_response_handling (c : AuthConfig) (tk : String) (now status : Nat)
    (msg : String) (htok : c.authToken = some tk) :
    ((status = 401 ∨ status = 403) →
      (validateToken (some c) now (.response status)).2 = none ∧
        (validateToken (some c) now (.response status)).1.success = false ∧
        (validateToken (some c) now (.response status)).1.needsLogin = true) ∧
    (¬(200 ≤ status ∧ status < 300) → ¬(status = 401 ∨ status = 403) →
      (validateToken (some c) now (.response status)).2 = some c ∧
        (validateToken (some c) now (.response status)).1.success = false ∧
        (validateToken (some c) now (.response status)).1.needsLogin = false) ∧
    ((200 ≤ status ∧ status < 300) →
      (validateToken (some c) now (.response status)).2
          = some { c with lastValidated := some now } ∧
        (validateToken (some c) now (.response status)).1.success = true) ∧
    ((validateToken (some c) now (.netError msg)).2 = some c ∧
      (validateToken (some c) now (.netError msg)).1.success = false ∧
      (validateToken (some c) now (.netError msg)).1.needsLogin = false) := by
  refine ⟨?_, ?_, ?_, ?_⟩
  · intro hst
    have hok : responseOk status = false := by
      simp only [responseOk, decide_eq_false_iff_not]
      omega
    simp only [validateToken, htok, hok, Bool.false_eq_true, if_false, if_pos hst]
    exact ⟨by trivial, by trivial, by trivial⟩
  · intro hnotok hnot401
    have hok : responseOk status = false := by
      simp only [responseOk, decide_eq_false_iff_not]
      omega
    simp only [validateToken, htok, hok, Bool.false_eq_true, if_false, if_neg hnot401]
    exact ⟨by trivial, by trivial, by trivial⟩
  · intro hok2
    have hok : responseOk status = true := by
      simp only [responseOk, decide_eq_true_eq]
      omega
    simp only [validateToken, htok, hok, if_true]
    exact ⟨by trivial, by trivial⟩
  · simp only [validateToken, htok]
    exact ⟨by trivial, by trivial, by trivial⟩

/-- Witness for C6: concrete checks at statuses 401 (cleared), 500 (kept,
no forced login), 200 (timestamp refreshed) and a network error (kept),
each obtained by applying the response-handling theorem. -/
theorem validateToken_response_handling_witness :
    ((validateToken (some ⟨some "tok", some "uid", some 5⟩) 99 (.response 401)).2 = none ∧
      (validateToken (some ⟨some "tok", some "uid", some 5⟩) 99 (.response 401)).1.needsLogin
        = true) ∧
    ((validateToken (some ⟨some "tok", some "uid", some 5⟩) 99 (.response 500)).2
        = some ⟨some "tok", some "uid", some 5⟩ ∧
      (validateToken (some ⟨some "tok", some "uid", some 5⟩) 99 (.response 500)).1.needsLogin
        = false) ∧
    ((validateToken (some ⟨some "tok", some "uid", some 5⟩) 99 (.response 200)).2
        = some ⟨some "tok", some "uid", some 99⟩) ∧
    ((validateToken (some ⟨some "tok", some "uid", some 5⟩) 99 (.netError "down")).2
        = some ⟨some "tok", some "uid", some 5⟩) := by
  have h := validateToken_response_handling ⟨some "tok", some "uid", some 5⟩ "tok" 99 401
    "down" rfl
  have h500 := validateToken_response_handling ⟨some "tok", some "uid", some 5⟩ "tok" 99 500
    "down" rfl
  have h200 := validateToken_response_handling ⟨some "tok", some "uid", some 5⟩ "tok" 99 200
    "down" rfl
  exact ⟨⟨(h.1 (by decide)).1, (h.1 (by decide)).2.2⟩,
    ⟨(h500.2.1 (by decide) (by decide)).1, (h500.2.1 (by decide) (by decide)).2.2⟩,
    (h200.2.2.1 (by decide)).1,
    h.2.2.2.1⟩

/- ## Background delivery handler: `handleSingleHTMLElement` of the
   background service worker (`src/background/background.js`).

   For every `PROCESS_SINGLE_HTML_ELEMENT` message — sent once per
   collected item by `processElementsAsync` — the handler first reads the
   `accessToken` cookie from the frontend domain
   (`chrome.cookies.getAll`), then calls `GET /users/me`, then
   `POST /posts/queue`.  The side effects of one invocation are recorded
   as an explicit trace. -/

/-- A credential-store or network side effect of the background handler. -/
inductive BgEffect where
  | cookieRead
  | fetchUsersMe
  | fetchQueue
  deriving Repr, DecidableEq

/-- Environment of one `handleSingleHTMLElement` invocation: the value of
the `accessToken` cookie (if present and non-empty) and the outcomes of
the two fetches it may perform. -/
structure BgEnv where
  accessToken : Option String
  usersMeOutcome : FetchOutcome
  queueOutcome : FetchOutcome
  deriving Repr, DecidableEq

/-- Response object sent back to the content script by
`handleSingleHTMLElement`. -/
structure BgResponse where
  success : Bool
  error : Option String
  deriving Repr, DecidableEq

/-- `handleSingleHTMLElement` (`src/background/background.js` lines
122-208): read the `accessToken` cookie; if absent, fail; otherwise call
`GET /users/me`; on non-2xx fail; otherwise `POST /posts/queue`; on non-2xx
fail; otherwise respond success.  The returned trace lists the performed
side effects in order; every path starts with exactly one cookie read. -/
def handleSingleHTMLElement (env : BgEnv) : BgResponse × List BgEffect :=
  match env.accessToken with
  | none => (⟨false, some "No authentication token available"⟩, [.cookieRead])
  | some _ =>
    match env.usersMeOutcome with
    | .netError msg => (⟨false, some msg⟩, [.cookieRead, .fetchUsersMe])
    | .response status =>
      if responseOk status then
        match env.queueOutcome with
        | .netError msg =>
            (⟨false, some msg⟩, [.cookieRead, .fetchUsersMe, .fetchQueue])
        | .response qstatus =>
          if responseOk qstatus then
            (⟨true, none⟩, [.cookieRead, .fetchUsersMe, .fetchQueue])
          else
            (⟨false, some "API request failed"⟩,
              [.cookieRead, .fetchUsersMe, .fetchQueue])
      else
        (⟨false, some "Failed to get user info"⟩, [.cookieRead, .fetchUsersMe])

/-- Number of credential-store reads (`accessToken` cookie reads) performed
by one `handleSingleHTMLElement` invocation. -/
def cookieReads (env : BgEnv) : Nat :=
  ((handleSingleHTMLElement env).2.filter (fun e => e = BgEffect.cookieRead)).length

/-- Total credential-store reads of a delivery run: `processElementsAsync`
sends one `PROCESS_SINGLE_HTML_ELEMENT` message per collected item, so a
run over items with invocation environments `envs` invokes the handler
once per item. -/
def deliveryRunCookieReads (envs : List BgEnv) : Nat :=
  (envs.map cookieReads).sum

/-- A sample invocation environment: cookie present, both fetches succeed. -/
def sampleBgEnv : BgEnv :=
  ⟨some "tok", .response 200, .response 200⟩

/-- C7 counterexample: the number of credential-store reads of a delivery
run is NOT independent of the number of items — a 1-item run performs 1
cookie read and a 2-item run performs 2, because `handleSingleHTMLElement`
reads the `accessToken` cookie on every per-item invocation. -/
theorem deliveryRun_reads_depend_on_item_count :
    deliveryRunCookieReads [sampleBgEnv] = 1 ∧
    deliveryRunCookieReads [sampleBgEnv, sampleBgEnv] = 2 ∧
    ¬(deliveryRunCookieReads [sampleBgEnv, sampleBgEnv]
        = deliveryRunCookieReads [sampleBgEnv]) := by
  refine ⟨rfl, rfl, by decide⟩

lemma cookieReads_eq_one (env : BgEnv) : cookieReads env = 1 := by
  unfold cookieReads handleSingleHTMLElement
  rcases env with ⟨tok, ume, q⟩
  rcases tok with _ | t
  · rfl
  · rcases ume with ums | umsg
    · by_cases h : responseOk ums = true
      · simp only [h, if_true]
        rcases q with qs | qmsg
        · by_cases h2 : responseOk qs = true
          · simp only [h2, if_true]
            rfl
          · simp only [h2]
            rfl
        · rfl
      · simp only [Bool.not_eq_true] at h
        simp only [h]
        rfl
    · rfl

/-- C7 (amended): the delivery path reads the credential store once per
delivered item, not once per run — `handleSingleHTMLElement` performs
exactly one `accessToken` cookie read on every invocation, on every
outcome path, so a run delivering `n` items performs exactly `n`
credential-store reads. -/
theorem deliveryRun_reads_once_per_item (envs : List BgEnv) :
    (∀ env : BgEnv, cookieReads env = 1) ∧
    deliveryRunCookieReads envs = envs.length := by
  refine ⟨cookieReads_eq_one, ?_⟩
  unfold deliveryRunCookieReads
  induction envs with
  | nil => rfl
  | cons e rest ih =>
      simp only [List.map_cons, List.sum_cons, List.length_cons, ih, cookieReads_eq_one]
      omega

/- ## Delivery stagger: `processElementsAsync` fires the per-item sends
   with `setTimeout(..., index * 100)` (`src/content/content.js` lines
   329-334); the modular `DataProcessor.processAllElements` uses
   `index * DELAYS.ELEMENT_PROCESSING_INTERVAL` with the same constant. -/

/-- `DELAYS.ELEMENT_PROCESSING_INTERVAL` of `src/shared/constants.js`
(milliseconds). -/
def ELEMENT_PROCESSING_INTERVAL : Nat := 100

/-- Delay, in milliseconds from dispatch start, with which the delivery
attempt of the item at 0-based position `index` is scheduled. -/
def scheduleDelay (index : Nat) : Nat :=
  index * ELEMENT_PROCESSING_INTERVAL

/-- The delays scheduled by `collectedElements.forEach((element, index) =>
setTimeout(..., index * 100))` for a run of `n` items, in discovery
order. -/
def scheduleDelays (n : Nat) : List Nat :=
  (List.range n).map scheduleDelay

/-- C8: for a run of `n` collected items, the delivery attempt of the item
at 0-based position `i < n` is scheduled `i * 100` ms after dispatch
start; in particular, for `n = 5` the 5th item (position 4) is scheduled
at 400 ms, so not before 400 ms has elapsed. -/
theorem scheduleDelays_stagger (n i : Nat) (hi : i < n) :
    (scheduleDelays n)[i]? = some (i * 100) ∧
    (scheduleDelays 5)[4]? = some 400 ∧
    400 ≤ (scheduleDelays 5).foldr max 0 := by
  refine ⟨?_, by decide, by decide⟩
  unfold scheduleDelays scheduleDelay ELEMENT_PROCESSING_INTERVAL
  simp [List.getElem?_map, List.getElem?_range hi]

/-- Witness for C8 at `n = 5`, `i = 4`. -/
theorem scheduleDelays_stagger_witness :
    (4 < 5) ∧
    ((scheduleDelays 5)[4]? = some (4 * 100) ∧
      (scheduleDelays 5)[4]? = some 400 ∧
      400 ≤ (scheduleDelays 5).foldr max 0) :=
  ⟨by decide, scheduleDelays_stagger 5 4 (by decide)⟩

/- ## CrossContextMessenger: `MessageService` of
   `src/shared/utils/messaging.js`.

   `_sendMessage` (lines 82-109) loops `attempt` from 0 to `retries - 1`:
   each attempt races the raw send against a timeout; a rejection (send
   error or timeout — a communication failure) is caught and, if another
   attempt remains, waits `1000 * (attempt + 1)` ms and retries; after the
   last attempt the last error is thrown.  A RESOLVED response — including
   one carrying a handler-side business error, which `addListener` (lines
   161-201) delivers via `sendResponse({ error })` so that the sender's
   promise RESOLVES — returns immediately and is never re-sent.

   The outcome of the `attempt`-th raw send (resolution with a response
   object, or rejection with a communication error) is an explicit
   parameter `outcomes : Nat → SendOutcome`. -/

/-- A response object from the receiving context.  `error` is set when the
remote handler failed (business-logic failure relayed through
`sendResponse({ error: ... })`). -/
structure MsgResponse where
  error : Option String
  payload : Option String
  deriving Repr, DecidableEq

/-- Outcome of one raw send: the promise resolves with a response, or
rejects with a communication failure (connection error or timeout). -/
inductive SendOutcome where
  | resolved (r : MsgResponse)
  | commError (e : String)
  deriving Repr, DecidableEq

/-- Result of a `_sendMessage` call: the value (response or thrown error),
the number of raw send attempts performed, and the list of backoff waits
(milliseconds) performed between attempts, in order. -/
structure SendRun where
  result : Except String MsgResponse
  attempts : Nat
  waits : List Nat
  deriving Repr

/-- The retry loop of `MessageService._sendMessage`
(`src/shared/utils/messaging.js` lines 82-109), starting at loop index
`attempt`.  `retries` is the configured attempt count (default 1).  A
resolved response returns immediately; a communication error waits
`1000 * (attempt + 1)` ms and retries while `attempt < retries - 1`, and is
thrown after the final attempt. -/
def sendMessageLoop (outcomes : Nat → SendOutcome) (retries : Nat) (attempt : Nat) :
    SendRun :=
  if _h : attempt < retries then
    match outcomes attempt with
    | .resolved r => ⟨.ok r, attempt + 1, []⟩
    | .commError e =>
      if h2 : attempt < retries - 1 then
        let rest := sendMessageLoop outcomes retries (attempt + 1)
        ⟨rest.result, rest.attempts, 1000 * (attempt + 1) :: rest.waits⟩
      else
        ⟨.error e, attempt + 1, []⟩
  else
    ⟨.error "no attempt performed", attempt, []⟩
  termination_by retries - attempt
  decreasing_by
    omega

/-- A full `_sendMessage` call with the given configured `retries`. -/
def sendMessage (outcomes : Nat → SendOutcome) (retries : Nat) : SendRun :=
  sendMessageLoop outcomes retries 0

lemma sendMessageLoop_attempts_le (outcomes : Nat → SendOutcome) (retries : Nat) :
    ∀ k attempt, retries - attempt ≤ k →
      attempt ≤ (sendMessageLoop outcomes retries attempt).attempts ∧
        (sendMessageLoop outcomes retries attempt).attempts ≤ max retries attempt ∧
        (attempt < retries →
          attempt + 1 ≤ (sendMessageLoop outcomes retries attempt).attempts) := by
  intro k
  induction k with
  | zero =>
      intro attempt hk
      rw [sendMessageLoop]
      have hcond : ¬(attempt < retries) := by omega
      rw [dif_neg hcond]
      show attempt ≤ attempt ∧ attempt ≤ max retries attempt ∧
        (attempt < retries → attempt + 1 ≤ attempt)
      omega
  | succ k ih =>
      intro attempt hk
      rw [sendMessageLoop]
      split
      · next hlt =>
          split
          · show attempt ≤ attempt + 1 ∧ attempt + 1 ≤ max retries attempt ∧
              (attempt < retries → attempt + 1 ≤ attempt + 1)
            omega
          · split
            · next h2 =>
                have hrec := ih (attempt + 1) (by omega)
                show attempt ≤ (sendMessageLoop outcomes retries (attempt + 1)).attempts ∧
                  (sendMessageLoop outcomes retries (attempt + 1)).attempts
                      ≤ max retries attempt ∧
                  (attempt < retries →
                    attempt + 1 ≤ (sendMessageLoop outcomes retries (attempt + 1)).attempts)
                omega
            · show attempt ≤ attempt + 1 ∧ attempt + 1 ≤ max retries attempt ∧
                (attempt < retries → attempt + 1 ≤ attempt + 1)
              omega
      · next hge =>
          show attempt ≤ attempt ∧ attempt ≤ max retries attempt ∧
            (attempt < retries → attempt + 1 ≤ attempt)
          omega

lemma sendMessageLoop_waits (outcomes : Nat → SendOutcome) (retries : Nat) :
    ∀ k attempt, retries - attempt ≤ k →
      (sendMessageLoop outcomes retries attempt).waits
        = (List.range ((sendMessageLoop outcomes retries attempt).attempts - 1 - attempt)).map
            (fun j => 1000 * (attempt + j + 1)) := by
  intro k
  induction k with
  | zero =>
      intro attempt hk
      rw [sendMessageLoop]
      have hcond : ¬(attempt < retries) := by omega
      rw [dif_neg hcond]
      show ([] : List Nat)
        = (List.range (attempt - 1 - attempt)).map (fun j => 1000 * (attempt + j + 1))
      rw [Nat.sub_sub, Nat.sub_eq_zero_of_le (by omega)]
      rfl
  | succ k ih =>
      intro attempt hk
      rw [sendMessageLoop]
      split
      · next hlt =>
          split
          · show ([] : List Nat)
              = (List.range (attempt + 1 - 1 - attempt)).map (fun j => 1000 * (attempt + j + 1))
            rw [Nat.sub_sub, Nat.add_comm 1 attempt, Nat.sub_self]
            rfl
          · split
            · next h2 =>
                have hrec := sendMessageLoop_attempts_le outcomes retries k (attempt + 1)
                  (by omega)
                have hw := ih (attempt + 1) (by omega)
                have hge2 : attempt + 2 ≤ (sendMessageLoop outcomes retries (attempt + 1)).attempts :=
                  hrec.2.2 (by omega)
                show 1000 * (attempt + 1) :: (sendMessageLoop outcomes retries (attempt + 1)).waits
                  = (List.range
                        ((sendMessageLoop outcomes retries (attempt + 1)).attempts - 1 - attempt)).map
                      (fun j => 1000 * (attempt + j + 1))
                rw [hw]
                have hstep : (sendMessageLoop outcomes retries (attempt + 1)).attempts - 1 - attempt
                    = ((sendMessageLoop outcomes retries (attempt + 1)).attempts - 1
                        - (attempt + 1)) + 1 := by
                  omega
                rw [hstep, List.range_succ_eq_map, List.map_cons, List.map_map]
                have hfun : ((fun j => 1000 * (attempt + j + 1)) ∘ Nat.succ)
                    = (fun j => 1000 * (attempt + 1 + j + 1)) := by
                  funext j
                  simp only [Function.comp_apply, Nat.succ_eq_add_one]
                  ring
                rw [hfun]
            · show ([] : List Nat)
                = (List.range (attempt + 1 - 1 - attempt)).map (fun j => 1000 * (attempt + j + 1))
              rw [Nat.sub_sub, Nat.add_comm 1 attempt, Nat.sub_self]
              rfl
      · next hge =>
          show ([] : List Nat)
            = (List.range (attempt - 1 - attempt)).map (fun j => 1000 * (attempt + j + 1))
          rw [Nat.sub_sub, Nat.sub_eq_zero_of_le (by omega)]
          rfl

/-- C9: the `_sendMessage` retry layer (a) returns a RESOLVED response
immediately — one raw send, no backoff — even when that response carries a
remote-handler (business-logic) error, so handler failures are never
retried; (b) performs at most the configured `retries` raw send attempts
for every outcome sequence; and (c) waits exactly `attemptNumber * 1000` ms
before retry `attemptNumber` (linear backoff: the waits performed are
`1000·1, 1000·2, …`), retrying only after communication failures. -/
theorem sendMessage_retry_policy (outcomes : Nat → SendOutcome) (retries : Nat)
    (r : MsgResponse) (hpos : 0 < retries) (hfirst : outcomes 0 = .resolved r) :
    sendMessage outcomes retries = ⟨.ok r, 1, []⟩ ∧
    (∀ outcomes2 : Nat → SendOutcome,
      (sendMessage outcomes2 retries).attempts ≤ retries) ∧
    (∀ outcomes2 : Nat → SendOutcome,
      (sendMessage outcomes2 retries).waits
        = (List.range ((sendMessage outcomes2 retries).attempts - 1)).map
            (fun j => 1000 * (j + 1))) := by
  refine ⟨?_, ?_, ?_⟩
  · unfold sendMessage
    rw [sendMessageLoop]
    rw [dif_pos hpos]
    rw [hfirst]
  · intro outcomes2
    have h := sendMessageLoop_attempts_le outcomes2 retries retries 0 (by omega)
    have : max retries 0 = retries := by omega
    unfold sendMessage
    omega
  · intro outcomes2
    have h := sendMessageLoop_waits outcomes2 retries retries 0 (by omega)
    unfold sendMessage
    rw [h]
    simp

/-- Witness for C9 with `retries = 3` and a first send that resolves with a
business-logic error response (`{ error: "User not authenticated" }`): the
call returns it after exactly one attempt with no backoff waits. -/
theorem sendMessage_retry_policy_witness :
    (0 < 3) ∧
    ((fun _ : Nat => SendOutcome.resolved ⟨some "User not authenticated", none⟩) 0
        = SendOutcome.resolved ⟨some "User not authenticated", none⟩) ∧
    (sendMessage (fun _ => SendOutcome.resolved ⟨some "User not authenticated", none⟩) 3
        = ⟨.ok ⟨some "User not authenticated", none⟩, 1, []⟩ ∧
      (∀ outcomes2 : Nat → SendOutcome, (sendMessage outcomes2 3).attempts ≤ 3) ∧
      (∀ outcomes2 : Nat → SendOutcome,
        (sendMessage outcomes2 3).waits
          = (List.range ((sendMessage outcomes2 3).attempts - 1)).map
              (fun j => 1000 * (j + 1)))) :=
  ⟨by decide, rfl,
    sendMessage_retry_policy (fun _ => SendOutcome.resolved ⟨some "User not authenticated", none⟩)
      3 ⟨some "User not authenticated", none⟩ (by decide) rfl⟩

/- ## `MessageService.sendToContent` (lines 31-40): unlike
   `sendToBackground`, it does NOT route through `_sendMessage` — it awaits
   a single `chrome.tabs.sendMessage` and rethrows its error.  Its
   `options` parameter (carrying `timeout` and `retries`) is received but
   never read. -/

/-- The options object callers pass to `MessageService` senders. -/
structure SendOptions where
  timeout : Option Nat
  retries : Option Nat
  deriving Repr, DecidableEq

/-- The options `SyncService.initiateScraping`
(`src/background/services/syncService.js` lines 161-184) passes to
`sendToContent`: `{ timeout: 10000, retries: 2 }`. -/
def initiateScrapingOptions : SendOptions :=
  ⟨some 10000, some 2⟩

/-- `MessageService.sendToContent` (`src/shared/utils/messaging.js` lines
31-40): one `chrome.tabs.sendMessage` call whose outcome is returned
directly (response on resolution, rethrown error on rejection); the
`options` argument is ignored.  Returns the result and the number of raw
send attempts performed. -/
def sendToContent (outcome : SendOutcome) (options : SendOptions) :
    (Except String MsgResponse) × Nat :=
  match outcome with
  | .resolved r => (.ok r, 1)
  | .commError e => (.error e, 1)

/-- C10: `sendToContent` performs exactly one raw send attempt and its
behavior is entirely independent of the `timeout` / `retries` fields of
its options — in particular with `initiateScrapingOptions`
(`{ timeout: 10000, retries: 2 }`) it behaves exactly as with empty
options: the caller gets the receiver's response on resolution and the
single send's error on rejection, with no timeout bound and no retry. -/
theorem sendToContent_single_attempt_ignores_options (outcome : SendOutcome)
    (options options2 : SendOptions) (r : MsgResponse) (e : String) :
    (sendToContent outcome options).2 = 1 ∧
    sendToContent outcome options = sendToContent outcome options2 ∧
    sendToContent outcome initiateScrapingOptions = sendToContent outcome ⟨none, none⟩ ∧
    (outcome = .resolved r → (sendToContent outcome options).1 = .ok r) ∧
    (outcome = .commError e → (sendToContent outcome options).1 = .error e) := by
  refine ⟨?_, rfl, rfl, ?_, ?_⟩
  · cases outcome <;> rfl
  · intro hres
    rw [hres]
    rfl
  · intro herr
    rw [herr]
    rfl

/-- Witness for C10: a resolved response and a failed send, checked with
`initiateScrapingOptions` against a second options value. -/
theorem sendToContent_single_attempt_witness :
    ((sendToContent (.resolved ⟨none, some "ok"⟩) initiateScrapingOptions).2 = 1 ∧
      sendToContent (.resolved ⟨none, some "ok"⟩) initiateScrapingOptions
        = sendToContent (.resolved ⟨none, some "ok"⟩) ⟨none, none⟩ ∧
      sendToContent (.resolved ⟨none, some "ok"⟩) initiateScrapingOptions
        = sendToContent (.resolved ⟨none, some "ok"⟩) ⟨none, none⟩ ∧
      (SendOutcome.resolved ⟨none, some "ok"⟩ = .resolved ⟨none, some "ok"⟩ →
        (sendToContent (.resolved ⟨none, some "ok"⟩) initiateScrapingOptions).1
          = .ok ⟨none, some "ok"⟩) ∧
      (SendOutcome.resolved ⟨none, some "ok"⟩ = .commError "down" →
        (sendToContent (.resolved ⟨none, some "ok"⟩) initiateScrapingOptions).1
          = .error "down")) :=
  sendToContent_single_attempt_ignores_options (.resolved ⟨none, some "ok"⟩)
    initiateScrapingOptions ⟨none, none⟩ ⟨none, some "ok"⟩ "down"

end Yalg
